import Mathlib

/-!
Verification of the `src/wavhdr.h` header of the voz repository: the 44-byte
canonical PCM WAVE header record `wavHeader_t` and its three derived
operations, the macros `TEST_WAV_COMPAT`, `WAV_LEN` and `WAV_NSAMPLES`.

Every multi-byte field of the C struct is an unsigned integer; the embedding
uses `Nat` together with the range predicate `WavHeader.inRange` stating the
declared bit widths.  The header file itself contains no serialization code
(the struct's packed little-endian byte layout is the implicit wire
contract), so the byte-level encoder and decoder below are modelled from the
specification's layout table.
-/

/-- One 4-byte raw tag field of the struct (`uint8_t name[4]` in C). -/
structure Bytes4 where
  b0 : Nat
  b1 : Nat
  b2 : Nat
  b3 : Nat
deriving DecidableEq

/-- The `wavHeader_t` struct of `src/wavhdr.h`: thirteen fields in the
declared order. -/
structure WavHeader where
  RIFF : Bytes4
  ChunkSize : Nat
  WAVE : Bytes4
  fmt : Bytes4
  Subchunk1Size : Nat
  AudioFormat : Nat
  NumOfChan : Nat
  SamplesPerSec : Nat
  bytesPerSec : Nat
  blockAlign : Nat
  bitsPerSample : Nat
  Subchunk2ID : Bytes4
  Subchunk2Size : Nat
deriving DecidableEq

/-- All four bytes of a raw tag field fit in 8 bits. -/
def Bytes4.inRange (b : Bytes4) : Prop :=
  b.b0 < 256 ∧ b.b1 < 256 ∧ b.b2 < 256 ∧ b.b3 < 256

instance (b : Bytes4) : Decidable b.inRange := by
  unfold Bytes4.inRange
  infer_instance

/-- Every field of the header is within its declared bit width
(`uint8_t[4]`, `uint16_t` or `uint32_t`). -/
def WavHeader.inRange (w : WavHeader) : Prop :=
  w.RIFF.inRange ∧ w.ChunkSize < 2 ^ 32 ∧ w.WAVE.inRange ∧ w.fmt.inRange ∧
  w.Subchunk1Size < 2 ^ 32 ∧ w.AudioFormat < 2 ^ 16 ∧ w.NumOfChan < 2 ^ 16 ∧
  w.SamplesPerSec < 2 ^ 32 ∧ w.bytesPerSec < 2 ^ 32 ∧ w.blockAlign < 2 ^ 16 ∧
  w.bitsPerSample < 2 ^ 16 ∧ w.Subchunk2ID.inRange ∧ w.Subchunk2Size < 2 ^ 32

instance (w : WavHeader) : Decidable w.inRange := by
  unfold WavHeader.inRange
  infer_instance

/-- The macro `TEST_WAV_COMPAT(wav)` of `src/wavhdr.h`, transcribed
condition for condition:
`(wav)->AudioFormat==1 && ((wav)->NumOfChan==1 || (wav)->NumOfChan==2)
 && (wav)->SamplesPerSec==16000 && (wav)->bitsPerSample==16
 && (wav)->Subchunk2ID[0]=='d' && (wav)->Subchunk2ID[3] == 'a'`. -/
def isCompatible (wav : WavHeader) : Bool :=
  wav.AudioFormat == 1 && (wav.NumOfChan == 1 || wav.NumOfChan == 2) &&
    wav.SamplesPerSec == 16000 && wav.bitsPerSample == 16 &&
    wav.Subchunk2ID.b0 == Char.toNat 'd' && wav.Subchunk2ID.b3 == Char.toNat 'a'

/-- The macro `WAV_LEN(wav)` of `src/wavhdr.h`: `(wav)->Subchunk2Size`. -/
def wavLength (wav : WavHeader) : Nat :=
  wav.Subchunk2Size

/-- The divisor of `WAV_NSAMPLES`:
`(((wav)->bitsPerSample/8)*(wav)->NumOfChan)` with C truncating division. -/
def wavDivisor (wav : WavHeader) : Nat :=
  (wav.bitsPerSample / 8) * wav.NumOfChan

/-- The macro `WAV_NSAMPLES(wav)` of `src/wavhdr.h`:
`WAV_LEN((wav)) / (((wav)->bitsPerSample/8)*(wav)->NumOfChan)`.
C unsigned division is undefined when the divisor is zero, so the embedding
makes that case explicit as `none`; all field values stay well below the
promotion width, so no other overflow can occur. -/
def wavSampleCount (wav : WavHeader) : Option Nat :=
  if wavDivisor wav = 0 then none
  else some (wavLength wav / wavDivisor wav)

/-- Modelled from the spec: the header file has no serialization code, so the
little-endian split of a 16-bit field into two bytes follows the layout table
of the specification. -/
def le16 (n : Nat) : List Nat :=
  [n % 256, n / 256 % 256]

/-- Modelled from the spec: little-endian split of a 32-bit field into four
bytes, following the layout table of the specification. -/
def le32 (n : Nat) : List Nat :=
  [n % 256, n / 256 % 256, n / 65536 % 256, n / 16777216 % 256]

/-- The four raw bytes of a tag field, in declared order. -/
def Bytes4.toBytes (b : Bytes4) : List Nat :=
  [b.b0, b.b1, b.b2, b.b3]

/-- Modelled from the spec: the header file has no serialization code, so the
encoder writes the thirteen fields in declared order and width, multi-byte
integers little-endian, exactly as the layout table of the specification
prescribes. -/
def encodeHeader (w : WavHeader) : List Nat :=
  w.RIFF.toBytes ++ le32 w.ChunkSize ++ w.WAVE.toBytes ++ w.fmt.toBytes ++
    le32 w.Subchunk1Size ++ le16 w.AudioFormat ++ le16 w.NumOfChan ++
    le32 w.SamplesPerSec ++ le32 w.bytesPerSec ++ le16 w.blockAlign ++
    le16 w.bitsPerSample ++ w.Subchunk2ID.toBytes ++ le32 w.Subchunk2Size

/-- Modelled from the spec: the decoder consumes exactly 44 bytes, reading
the thirteen fields in declared order, multi-byte integers little-endian;
any other byte count is the `TruncatedInput` failure of the specification,
embedded as `none`. -/
def decodeHeader : List Nat → Option WavHeader
  | r0 :: r1 :: r2 :: r3 :: c0 :: c1 :: c2 :: c3 :: v0 :: v1 :: v2 :: v3 ::
    f0 :: f1 :: f2 :: f3 :: s0 :: s1 :: s2 :: s3 :: a0 :: a1 :: n0 :: n1 ::
    q0 :: q1 :: q2 :: q3 :: y0 :: y1 :: y2 :: y3 :: k0 :: k1 :: z0 :: z1 ::
    d0 :: d1 :: d2 :: d3 :: u0 :: u1 :: u2 :: u3 :: [] =>
    some ⟨⟨r0, r1, r2, r3⟩,
      c0 + 256 * c1 + 65536 * c2 + 16777216 * c3,
      ⟨v0, v1, v2, v3⟩,
      ⟨f0, f1, f2, f3⟩,
      s0 + 256 * s1 + 65536 * s2 + 16777216 * s3,
      a0 + 256 * a1,
      n0 + 256 * n1,
      q0 + 256 * q1 + 65536 * q2 + 16777216 * q3,
      y0 + 256 * y1 + 65536 * y2 + 16777216 * y3,
      k0 + 256 * k1,
      z0 + 256 * z1,
      ⟨d0, d1, d2, d3⟩,
      u0 + 256 * u1 + 65536 * u2 + 16777216 * u3⟩
  | _ => none

/-- Reads one byte of an encoded header at a given offset. -/
def byteAt (bs : List Nat) (i : Nat) : Nat :=
  bs.getD i 0

/-- Reads a little-endian 16-bit integer of an encoded header at a given
byte offset. -/
def read16 (bs : List Nat) (i : Nat) : Nat :=
  byteAt bs i + 256 * byteAt bs (i + 1)

/-- Reads a little-endian 32-bit integer of an encoded header at a given
byte offset. -/
def read32 (bs : List Nat) (i : Nat) : Nat :=
  byteAt bs i + 256 * byteAt bs (i + 1) + 65536 * byteAt bs (i + 2) +
    16777216 * byteAt bs (i + 3)

/-- Reads a raw 4-byte tag of an encoded header at a given byte offset. -/
def readTag (bs : List Nat) (i : Nat) : Bytes4 :=
  ⟨byteAt bs i, byteAt bs (i + 1), byteAt bs (i + 2), byteAt bs (i + 3)⟩

/-- The ASCII bytes of the tag "data". -/
def dataTag : Bytes4 :=
  ⟨100, 97, 116, 97⟩

/-- A concrete compatible stereo header: 16 kHz, 16-bit, 2 channels,
4000-byte payload. -/
def stereoHeader : WavHeader :=
  ⟨⟨82, 73, 70, 70⟩, 4036, ⟨87, 65, 86, 69⟩, ⟨102, 109, 116, 32⟩, 16,
    1, 2, 16000, 64000, 4, 16, dataTag, 4000⟩

/-- The same stereo header with a 4001-byte (misaligned) payload. -/
def stereoHeaderOdd : WavHeader :=
  ⟨⟨82, 73, 70, 70⟩, 4037, ⟨87, 65, 86, 69⟩, ⟨102, 109, 116, 32⟩, 16,
    1, 2, 16000, 64000, 4, 16, dataTag, 4001⟩

/-- A header with zero channels: the degenerate-divisor input of the
sample-count operation. -/
def zeroChanHeader : WavHeader :=
  ⟨⟨82, 73, 70, 70⟩, 136, ⟨87, 65, 86, 69⟩, ⟨102, 109, 116, 32⟩, 16,
    1, 0, 16000, 64000, 4, 16, dataTag, 100⟩

/-- A mono compatible header whose Subchunk2ID is the bytes d, X, X, a:
not literally "data", yet it passes the weak tag check. -/
def weakTagHeader : WavHeader :=
  ⟨⟨82, 73, 70, 70⟩, 236, ⟨87, 65, 86, 69⟩, ⟨102, 109, 116, 32⟩, 16,
    1, 1, 16000, 32000, 2, 16, ⟨100, 88, 88, 97⟩, 200⟩

/-- A header whose RIFF and WAVE container magics are corrupt (all zero
bytes) but whose format fields satisfy the compatibility predicate. -/
def corruptMagicHeader : WavHeader :=
  ⟨⟨0, 0, 0, 0⟩, 0, ⟨0, 0, 0, 0⟩, ⟨0, 0, 0, 0⟩, 0,
    1, 2, 16000, 0, 0, 16, dataTag, 4000⟩

/-- C1: `isCompatible` returns true iff AudioFormat is 1, NumOfChan is 1 or
2, SamplesPerSec is 16000, bitsPerSample is 16, byte 0 of Subchunk2ID is
ASCII d (100) and byte 3 is ASCII a (97); the characterization mentions no
other field and only bytes 0 and 3 of Subchunk2ID, so nothing else
influences the result. -/
theorem C1_isCompatible_iff (wav : WavHeader) :
    isCompatible wav = true ↔
      wav.AudioFormat = 1 ∧ (wav.NumOfChan = 1 ∨ wav.NumOfChan = 2) ∧
        wav.SamplesPerSec = 16000 ∧ wav.bitsPerSample = 16 ∧
        wav.Subchunk2ID.b0 = 100 ∧ wav.Subchunk2ID.b3 = 97 := by
  simp [isCompatible, and_assoc]

/-- C2: whenever the divisor `(bitsPerSample / 8) * NumOfChan` is nonzero,
the sample count is `Subchunk2Size` integer-divided by that product, with
truncating division at both steps; in particular Subchunk2Size 4000 with
16-bit stereo gives 1000 frames and Subchunk2Size 4001 also gives 1000 by
truncation. -/
theorem C2_wavSampleCount_eq (wav : WavHeader)
    (h : (wav.bitsPerSample / 8) * wav.NumOfChan ≠ 0) :
    wavSampleCount wav =
        some (wav.Subchunk2Size / ((wav.bitsPerSample / 8) * wav.NumOfChan)) ∧
      wavSampleCount stereoHeader = some 1000 ∧
      wavSampleCount stereoHeaderOdd = some 1000 := by
  refine ⟨?_, by decide, by decide⟩
  simp [wavSampleCount, wavDivisor, wavLength, h]

/-- Witness for C2 at the concrete 16-bit stereo header with a 4000-byte
payload. -/
theorem C2_wavSampleCount_eq_witness :
    wavSampleCount stereoHeader =
      some (stereoHeader.Subchunk2Size /
        ((stereoHeader.bitsPerSample / 8) * stereoHeader.NumOfChan)) :=
  (C2_wavSampleCount_eq stereoHeader (by decide)).1

/-- C3: at the degenerate input with NumOfChan 0 (16-bit, 100-byte payload)
the divisor of `WAV_NSAMPLES` is zero, so the C macro performs an unchecked
unsigned division by zero, which is undefined behavior (embedded here as
`none`): the code reports no explicit DivisionByZero or InvalidHeader error
result, contrary to the specification's error-handling requirement. -/
theorem C3_degenerate_divisor_undefined :
    wavDivisor zeroChanHeader = 0 ∧ wavSampleCount zeroChanHeader = none := by
  decide

/-- C4: any header with AudioFormat 1, NumOfChan 1 or 2, SamplesPerSec
16000, bitsPerSample 16, Subchunk2ID byte 0 equal to ASCII d and byte 3
equal to ASCII a is accepted, whatever bytes 1 and 2 of Subchunk2ID are:
the tag check passes even when Subchunk2ID is not literally "data". -/
theorem C4_weak_tag_passes (wav : WavHeader) (h1 : wav.AudioFormat = 1)
    (h2 : wav.NumOfChan = 1 ∨ wav.NumOfChan = 2) (h3 : wav.SamplesPerSec = 16000)
    (h4 : wav.bitsPerSample = 16) (h5 : wav.Subchunk2ID.b0 = 100)
    (h6 : wav.Subchunk2ID.b3 = 97) : isCompatible wav = true := by
  rcases h2 with h2 | h2 <;> simp [isCompatible, h1, h2, h3, h4, h5, h6]

/-- Witness for C4 at the concrete header whose Subchunk2ID bytes are
d, X, X, a. -/
theorem C4_weak_tag_passes_witness : isCompatible weakTagHeader = true :=
  C4_weak_tag_passes weakTagHeader (by decide) (by decide) (by decide)
    (by decide) (by decide) (by decide)

/-- C5: `wavLength` returns exactly `Subchunk2Size`, untransformed and
independent of every other field. -/
theorem C5_wavLength_verbatim (wav : WavHeader) :
    wavLength wav = wav.Subchunk2Size := rfl

/-- C6: the serialized record is exactly 44 bytes, the thirteen fields sit
in declared order at the byte offsets of the layout table (RIFF at 0,
ChunkSize at 4, WAVE at 8, fmt at 12, Subchunk1Size at 16, AudioFormat at
20, NumOfChan at 22, SamplesPerSec at 24, bytesPerSec at 28, blockAlign at
32, bitsPerSample at 34, Subchunk2ID at 36, Subchunk2Size at 40) with no
padding between them, and every multi-byte integer reads back
little-endian. -/
theorem C6_layout (w : WavHeader) (h : w.inRange) :
    (encodeHeader w).length = 44 ∧
      readTag (encodeHeader w) 0 = w.RIFF ∧
      read32 (encodeHeader w) 4 = w.ChunkSize ∧
      readTag (encodeHeader w) 8 = w.WAVE ∧
      readTag (encodeHeader w) 12 = w.fmt ∧
      read32 (encodeHeader w) 16 = w.Subchunk1Size ∧
      read16 (encodeHeader w) 20 = w.AudioFormat ∧
      read16 (encodeHeader w) 22 = w.NumOfChan ∧
      read32 (encodeHeader w) 24 = w.SamplesPerSec ∧
      read32 (encodeHeader w) 28 = w.bytesPerSec ∧
      read16 (encodeHeader w) 32 = w.blockAlign ∧
      read16 (encodeHeader w) 34 = w.bitsPerSample ∧
      readTag (encodeHeader w) 36 = w.Subchunk2ID ∧
      read32 (encodeHeader w) 40 = w.Subchunk2Size := by
  obtain ⟨hr, hc, hv, hf, h1, ha, hn, hs, hb, hba, hbs, h2, hsz⟩ := h
  refine ⟨?_, ?_, ?_, ?_, ?_, ?_, ?_, ?_, ?_, ?_, ?_, ?_, ?_, ?_⟩
  all_goals
    simp [read16, read32, readTag, byteAt, encodeHeader, le16, le32,
      Bytes4.toBytes]
  all_goals
    omega

/-- Witness for C6 at the concrete 16-bit stereo header. -/
theorem C6_layout_witness :
    (encodeHeader stereoHeader).length = 44 ∧
      readTag (encodeHeader stereoHeader) 0 = stereoHeader.RIFF ∧
      read32 (encodeHeader stereoHeader) 4 = stereoHeader.ChunkSize ∧
      readTag (encodeHeader stereoHeader) 8 = stereoHeader.WAVE ∧
      readTag (encodeHeader stereoHeader) 12 = stereoHeader.fmt ∧
      read32 (encodeHeader stereoHeader) 16 = stereoHeader.Subchunk1Size ∧
      read16 (encodeHeader stereoHeader) 20 = stereoHeader.AudioFormat ∧
      read16 (encodeHeader stereoHeader) 22 = stereoHeader.NumOfChan ∧
      read32 (encodeHeader stereoHeader) 24 = stereoHeader.SamplesPerSec ∧
      read32 (encodeHeader stereoHeader) 28 = stereoHeader.bytesPerSec ∧
      read16 (encodeHeader stereoHeader) 32 = stereoHeader.blockAlign ∧
      read16 (encodeHeader stereoHeader) 34 = stereoHeader.bitsPerSample ∧
      readTag (encodeHeader stereoHeader) 36 = stereoHeader.Subchunk2ID ∧
      read32 (encodeHeader stereoHeader) 40 = stereoHeader.Subchunk2Size :=
  C6_layout stereoHeader (by decide)

/-- C7: encoding a header whose fields are within their declared bit widths
to its 44-byte little-endian form and decoding those bytes yields the
original header, field for field. -/
theorem C7_roundtrip (w : WavHeader) (h : w.inRange) :
    decodeHeader (encodeHeader w) = some w := by
  obtain ⟨riff, chunk, wave, fm, s1, af, ch, sr, bps, ba, bits, id2, s2⟩ := w
  obtain ⟨riff0, riff1, riff2, riff3⟩ := riff
  obtain ⟨wave0, wave1, wave2, wave3⟩ := wave
  obtain ⟨fm0, fm1, fm2, fm3⟩ := fm
  obtain ⟨id0, id1, id2b, id3⟩ := id2
  simp only [WavHeader.inRange, Bytes4.inRange] at h
  simp [encodeHeader, le16, le32, Bytes4.toBytes, List.cons_append,
    List.nil_append, decodeHeader, Option.some.injEq, WavHeader.mk.injEq,
    Bytes4.mk.injEq]
  repeat' apply And.intro
  all_goals first
    | trivial
    | omega

/-- Witness for C7 at the concrete 16-bit stereo header. -/
theorem C7_roundtrip_witness :
    decodeHeader (encodeHeader stereoHeader) = some stereoHeader :=
  C7_roundtrip stereoHeader (by decide)

/-- C8: the three operations are pure: they take the header by value, mutate
nothing, and equal headers give equal results. -/
theorem C8_operations_deterministic (w1 w2 : WavHeader) (h : w1 = w2) :
    isCompatible w1 = isCompatible w2 ∧ wavLength w1 = wavLength w2 ∧
      wavSampleCount w1 = wavSampleCount w2 := by
  subst h
  exact ⟨rfl, rfl, rfl⟩

/-- Witness for C8 at the concrete 16-bit stereo header. -/
theorem C8_operations_deterministic_witness :
    isCompatible stereoHeader = isCompatible stereoHeader ∧
      wavLength stereoHeader = wavLength stereoHeader ∧
      wavSampleCount stereoHeader = wavSampleCount stereoHeader :=
  C8_operations_deterministic stereoHeader stereoHeader rfl

/-- C9: on any header accepted by `isCompatible` the divisor of
`WAV_NSAMPLES` is `(16 / 8) * NumOfChan`, hence 2 or 4 and in particular
nonzero, so the division-by-zero fault of the sample count is unreachable
and the operation returns a defined value. -/
theorem C9_compatible_divisor_nonzero (wav : WavHeader)
    (h : isCompatible wav = true) :
    wavDivisor wav = 16 / 8 * wav.NumOfChan ∧
      (wavDivisor wav = 2 ∨ wavDivisor wav = 4) ∧ wavDivisor wav ≠ 0 ∧
      wavSampleCount wav = some (wavLength wav / wavDivisor wav) := by
  simp only [isCompatible, Bool.and_eq_true, Bool.or_eq_true, beq_iff_eq] at h
  obtain ⟨⟨⟨⟨⟨ha, hch⟩, hs⟩, hb⟩, h0⟩, h3⟩ := h
  have hd : wavDivisor wav = 2 * wav.NumOfChan := by
    simp [wavDivisor, hb]
  have hnz : wavDivisor wav ≠ 0 := by
    rcases hch with h | h <;> simp [hd, h]
  refine ⟨by simp [hd], ?_, hnz, ?_⟩
  · rcases hch with h | h <;> simp [hd, h]
  · simp [wavSampleCount, hnz]

/-- Witness for C9 at the concrete 16-bit stereo header. -/
theorem C9_compatible_divisor_nonzero_witness :
    wavDivisor stereoHeader = 16 / 8 * stereoHeader.NumOfChan ∧
      (wavDivisor stereoHeader = 2 ∨ wavDivisor stereoHeader = 4) ∧
      wavDivisor stereoHeader ≠ 0 ∧
      wavSampleCount stereoHeader =
        some (wavLength stereoHeader / wavDivisor stereoHeader) :=
  C9_compatible_divisor_nonzero stereoHeader (by decide)

/-- C10: two headers agreeing on AudioFormat, NumOfChan, SamplesPerSec,
bitsPerSample and bytes 0 and 3 of Subchunk2ID get the same verdict, so the
result is independent of the RIFF, WAVE and fmt magics, ChunkSize,
Subchunk1Size, bytesPerSec, blockAlign, Subchunk2Size and bytes 1 and 2 of
Subchunk2ID; in particular a header with corrupt container magics is still
reported compatible. -/
theorem C10_compat_noninterference (w1 w2 : WavHeader)
    (hA : w1.AudioFormat = w2.AudioFormat) (hN : w1.NumOfChan = w2.NumOfChan)
    (hS : w1.SamplesPerSec = w2.SamplesPerSec)
    (hB : w1.bitsPerSample = w2.bitsPerSample)
    (h0 : w1.Subchunk2ID.b0 = w2.Subchunk2ID.b0)
    (h3 : w1.Subchunk2ID.b3 = w2.Subchunk2ID.b3) :
    isCompatible w1 = isCompatible w2 ∧
      isCompatible corruptMagicHeader = true := by
  refine ⟨?_, by decide⟩
  simp [isCompatible, hA, hN, hS, hB, h0, h3]

/-- Witness for C10 at a pair of equal concrete headers. -/
theorem C10_compat_noninterference_witness :
    (isCompatible stereoHeaderOdd = isCompatible stereoHeaderOdd ∧
      isCompatible corruptMagicHeader = true) :=
  C10_compat_noninterference stereoHeaderOdd stereoHeaderOdd
    rfl rfl rfl rfl rfl rfl
